import Mathlib

/-!
Verification of the bounded web-crawl engine of `backend/app/services/scraper.py`
(web-scraper-qa). The Python code is shallowly embedded: strings are lists of
characters, the network is an explicit oracle (`Env`), HTML parsing is
abstracted into an already-parsed `Soup` record, and the stateful scraper is
modelled by explicit state passing. Machine integers of the Python code are
unbounded (`Int`), matching Python semantics.
-/

/-- Python strings are modelled as lists of characters (so that all operations
compute by kernel reduction). -/
abbrev Str := List Char

/-- Strip ASCII whitespace from both ends, modelling Python `str.strip()`. -/
def trimL (s : Str) : Str :=
  ((s.dropWhile Char.isWhitespace).reverse.dropWhile Char.isWhitespace).reverse

/-- Split at the first occurrence of `sep` (non-overlapping): returns the part
before and the part after, or `none` when `sep` does not occur. -/
def splitFirst (sep : Str) : Str → Option (Str × Str)
  | [] => if sep = [] then some ([], []) else none
  | c :: cs =>
    if sep.isPrefixOf (c :: cs) then some ([], (c :: cs).drop sep.length)
    else
      match splitFirst sep cs with
      | some (pre, post) => some (c :: pre, post)
      | none => none

/-- Split on a separator character, modelling Python `str.split(sep)` /
line splitting for robots.txt bodies. -/
def splitOnChar (sep : Char) : Str → List Str
  | [] => [[]]
  | c :: cs =>
    match splitOnChar sep cs with
    | [] => [[c]]
    | r :: rs => if c = sep then [] :: r :: rs else (c :: r) :: rs

/-- Characters that end the network-location component of a URL. -/
def urlStopChar (c : Char) : Bool := c = '/' || c = '?' || c = '#'

/-- Model of `urllib.parse.urlparse(url).netloc`: the text between `://` and
the first `/`, `?` or `#`; empty when the string has no `://`. -/
def netloc (url : Str) : Str :=
  match splitFirst "://".data url with
  | some (_, rest) => rest.takeWhile (fun c => !urlStopChar c)
  | none => []

/-- Model of `urllib.parse.urlparse(url).scheme` for absolute URLs (the text
before `://`; empty otherwise). -/
def schemeOf (url : Str) : Str :=
  match splitFirst "://".data url with
  | some (s, _) => s
  | none => []

/-- Model of `urllib.parse.urlparse(url).path`: for an absolute URL, the text
after the network location up to the first `?` or `#`. -/
def pathOf (url : Str) : Str :=
  match splitFirst "://".data url with
  | some (_, rest) =>
    ((rest.dropWhile (fun c => !urlStopChar c)).takeWhile (fun c => c != '?' && c != '#'))
  | none => url.takeWhile (fun c => c != '?' && c != '#')

/-- The directory part of a path: everything up to and including the last `/`
(empty when the path has no `/`). -/
def dirnameL (p : Str) : Str := (p.reverse.dropWhile (fun c => c != '/')).reverse

/-- Model of `urllib.parse.urljoin(base, href)` for the cases arising in the
crawler: absolute `href`, scheme-relative `//…`, root-relative `/…`, empty
`href`, and a plain relative path (no dot-segment normalization). -/
def urljoin (base href : Str) : Str :=
  if (splitFirst "://".data href).isSome then href
  else if "//".data.isPrefixOf href then schemeOf base ++ ":".data ++ href
  else if "/".data.isPrefixOf href then schemeOf base ++ "://".data ++ netloc base ++ href
  else if href = [] then base
  else
    let d := dirnameL (pathOf base)
    schemeOf base ++ "://".data ++ netloc base ++ (if d = [] then "/".data else d) ++ href

/-- Python slicing `xs[:n]` for a possibly negative bound `n` (a negative `n`
drops the last `-n` elements), as in `links_to_scrape[:max_pages - 1]`. -/
def pySliceTo (n : Int) (xs : List α) : List α :=
  if 0 ≤ n then xs.take n.toNat else xs.take (xs.length - (-n).toNat)

/-- Configuration for web scraping (`ScrapingConfig` dataclass, scraper.py
lines 17-23). Python ints are unbounded, hence `Int`. -/
structure ScrapingConfig where
  max_pages : Int := 100
  rate_limit : Int := 1
  respect_robots_txt : Bool := true
  scrape_multiple_pages : Bool := true
deriving Repr, DecidableEq

/-- Model of the third-party `validators.url` check used by
`WebScraper._is_valid_url` (scraper.py lines 67-69): an absolute URL with a
known scheme and a non-empty dotted host, no spaces in the host. The claims
use this only as a hypothesis or at concrete inputs. -/
def _is_valid_url (url : Str) : Bool :=
  let s := schemeOf url
  (s == "http".data || s == "https".data || s == "ftp".data) &&
  !(netloc url == []) &&
  (netloc url).all (fun c => c != ' ' && c != '/') &&
  (netloc url).contains '.'

/-- Model of `robotexclusionrulesparser.RobotExclusionRulesParser.parse` for
rule files without per-agent grouping: the parser state is the list of
non-empty `Disallow:` path prefixes. `parse` REPLACES the whole state. -/
def parseRobots (body : Str) : List Str :=
  ((splitOnChar '\n' body).filterMap (fun line =>
    let l := trimL line
    if "Disallow:".data.isPrefixOf l then some (trimL (l.drop 9)) else none)).filter
      (fun p => !(p == []))

/-- Model of `RobotExclusionRulesParser.is_allowed(user_agent, url)`: allowed
iff no disallow prefix matches the URL path (rules modelled for agent `*`,
which is the only agent the scraper passes). -/
def is_allowed (rules : List Str) (_user_agent : Str) (url : Str) : Bool :=
  !(rules.any (fun p => p.isPrefixOf (pathOf url)))

/-- State of `RobotsTxtChecker` (scraper.py lines 25-30). The Python object
holds ONE parser instance (`self.parser`) created in `__init__`; every value
stored in `self.cache` is a reference to that same object, so the model keeps
the single shared parser state plus the set of domains present in the cache. -/
structure RobotsTxtChecker where
  parser : List Str
  cache : List Str
deriving Repr, DecidableEq

/-- Parsed-HTML abstraction of a fetched page: what `BeautifulSoup` exposes to
the scraper (first `<title>` text, headings `<h1>`-`<h6>` with their numeric
level, `<p>` texts, `<code>` texts, anchor `href` values — all in document
order). -/
structure Soup where
  title : Option Str
  headings : List (Nat × Str)
  paragraphs : List Str
  code_blocks : List Str
  anchors : List Str
deriving Repr, DecidableEq

/-- The network oracle. `fetchRobots robots_url`: `some body` models
`requests.get` returning a response whose text is `body` (any status);
`none` models the request raising (connection error / timeout).
`fetchPage url`: `some soup` models `WebScraper._fetch_url` succeeding and
the body parsing to `soup`; `none` models `_fetch_url` returning `None`
(transport error, timeout or non-2xx status, scraper.py lines 55-65). -/
structure Env where
  fetchRobots : Str → Option Str
  fetchPage : Str → Option Soup

/-- The robots.txt URL synthesized for a page URL (scraper.py line 37). -/
def robotsUrlOf (url : Str) : Str :=
  urljoin ("https://".data ++ netloc url) "/robots.txt".data

/-- Result of one `RobotsTxtChecker.can_fetch` call: the boolean answer, the
checker state afterwards, and how many robots.txt HTTP fetches the call made. -/
structure RobotsStep where
  result : Bool
  checker : RobotsTxtChecker
  fetches : Nat
deriving Repr, DecidableEq

/-- `RobotsTxtChecker.can_fetch` (scraper.py lines 32-45). On a cache miss it
fetches `https://{domain}/robots.txt`; if the request raises, the `except`
returns `True` WITHOUT touching the cache; otherwise the shared parser is
re-parsed with the new body and the domain is added to the cache (the entry
aliasing the shared parser). On a cache hit it consults the shared parser. -/
def RobotsTxtChecker.can_fetch (env : Env) (c : RobotsTxtChecker) (url : Str)
    (user_agent : Str) : RobotsStep :=
  let domain := netloc url
  if c.cache.contains domain then
    ⟨is_allowed c.parser user_agent url, c, 0⟩
  else
    match env.fetchRobots (robotsUrlOf url) with
    | none => ⟨true, c, 1⟩
    | some body =>
      let p := parseRobots body
      ⟨is_allowed p user_agent url, ⟨p, domain :: c.cache⟩, 1⟩

/-- One heading of the extracted content (`level` is the numeral in the tag
name, `text` its stripped inner text). -/
structure Heading where
  level : Nat
  text : Str
deriving Repr, DecidableEq

/-- The content record built by `WebScraper._extract_content`
(scraper.py lines 87-120). -/
structure Content where
  title : Str
  headings : List Heading
  paragraphs : List Str
  code_blocks : List Str
deriving Repr, DecidableEq

/-- `WebScraper._extract_content` (scraper.py lines 87-120): title of the
first `<title>` (stripped, empty if absent); `<h1>`-`<h4>` headings in
document order; stripped non-empty `<p>` and `<code>` texts in document
order. -/
def _extract_content (soup : Soup) : Content :=
  { title := match soup.title with | some t => trimL t | none => []
    headings := (soup.headings.filter (fun h => 1 ≤ h.1 && h.1 ≤ 4)).map
      (fun h => ⟨h.1, trimL h.2⟩)
    paragraphs := (soup.paragraphs.map trimL).filter (fun t => !(t == []))
    code_blocks := (soup.code_blocks.map trimL).filter (fun t => !(t == [])) }

/-- The binary-extension denylist test of `_extract_links` (scraper.py
line 82): Python `full_url.endswith(('.pdf', '.zip', '.png', '.jpg'))` —
note it is applied to the FULL URL string. -/
def endsWithBinaryExt (u : Str) : Bool :=
  ".pdf".data.isSuffixOf u || ".zip".data.isSuffixOf u ||
  ".png".data.isSuffixOf u || ".jpg".data.isSuffixOf u

/-- `WebScraper._extract_links` (scraper.py lines 71-85): resolve each anchor
href against the base URL, keep it when its netloc equals the base netloc, it
is not in the visited set, and the full URL does not end in a binary
extension. `visited` is the scraper's `self.visited_urls`. -/
def _extract_links (visited : List Str) (soup : Soup) (base_url : Str) : List Str :=
  let base_domain := netloc base_url
  (soup.anchors.map (urljoin base_url)).filter (fun full_url =>
    netloc full_url == base_domain && !(visited.contains full_url) &&
    !(endsWithBinaryExt full_url))

/-- State of a `WebScraper` instance (scraper.py lines 50-53): the config, the
robots checker and the visited-URL set (a set of strings, modelled as a
duplicate-free list with membership via `contains`). -/
structure WebScraper where
  config : ScrapingConfig
  robots_checker : RobotsTxtChecker
  visited_urls : List Str
deriving Repr, DecidableEq

/-- `WebScraper.__init__` (scraper.py lines 50-53): `config or ScrapingConfig()`,
a fresh `RobotsTxtChecker`, and an empty visited set. -/
def WebScraper.init (config : Option ScrapingConfig) : WebScraper :=
  { config := config.getD {}
    robots_checker := ⟨[], []⟩
    visited_urls := [] }

/-- Set insertion for the visited set (`self.visited_urls.add(url)`). -/
def insertUrl (visited : List Str) (url : Str) : List Str :=
  if visited.contains url then visited else url :: visited

/-- A page record appended to `results['pages']`. -/
structure PageRecord where
  url : Str
  content : Content
deriving Repr, DecidableEq

/-- The dictionary returned by `WebScraper.scrape`. -/
structure CrawlResult where
  base_url : Str
  pages : List PageRecord
  error : Option Str
deriving Repr, DecidableEq

/-- How a `scrape` call terminates: a returned result, or one of the two
raised exceptions (`ValueError` for a malformed URL, `PermissionError` for a
robots-disallowed URL), with the exception message. -/
inductive ScrapeOutcome where
  | ok : CrawlResult → ScrapeOutcome
  | validationError : Str → ScrapeOutcome
  | permissionError : Str → ScrapeOutcome
deriving Repr, DecidableEq

/-- A full run of `scrape`: the outcome, the scraper state afterwards, the
list of URLs passed to `_fetch_url` in order, and the number of robots.txt
fetches performed. -/
structure ScrapeRun where
  outcome : ScrapeOutcome
  scraper : WebScraper
  pageFetches : List Str
  robotsFetches : Nat
deriving Repr, DecidableEq

/-- Mutable state of the secondary-page loop (scraper.py lines 157-171):
the visited set, the accumulated pages, and the fetch trace. -/
structure LoopState where
  visited : List Str
  pages : List PageRecord
  trace : List Str
deriving Repr, DecidableEq

/-- The `for link in links_to_scrape` loop of `scrape` (scraper.py lines
157-171): break once the visited set reaches `max_pages`; skip visited links
without fetching; otherwise fetch — on failure continue, on success mark
visited and append the page record. -/
def scrapeLoop (env : Env) (max_pages : Int) : List Str → LoopState → LoopState
  | [], st => st
  | link :: rest, st =>
    if (st.visited.length : Int) ≥ max_pages then st
    else if st.visited.contains link then scrapeLoop env max_pages rest st
    else
      match env.fetchPage link with
      | none => scrapeLoop env max_pages rest { st with trace := st.trace ++ [link] }
      | some soup =>
        scrapeLoop env max_pages rest
          { visited := insertUrl st.visited link
            pages := st.pages ++ [⟨link, _extract_content soup⟩]
            trace := st.trace ++ [link] }

/-- The `try` block of `scrape` (scraper.py lines 139-175): fetch the seed;
on failure the raised exception is caught and reported through the `error`
field; on success record the seed page and, when configured, run the
secondary-page loop over the truncated candidate list. -/
def scrapeTry (env : Env) (s : WebScraper) (url : Str) (rFetches : Nat) : ScrapeRun :=
  match env.fetchPage url with
  | none =>
    ⟨.ok ⟨url, [], some ("Failed to fetch main URL: ".data ++ url)⟩, s, [url], rFetches⟩
  | some main_soup =>
    let visited1 := insertUrl s.visited_urls url
    let pages1 : List PageRecord := [⟨url, _extract_content main_soup⟩]
    if s.config.scrape_multiple_pages then
      let links := _extract_links visited1 main_soup url
      let fin := scrapeLoop env s.config.max_pages
        (pySliceTo (s.config.max_pages - 1) links) ⟨visited1, pages1, []⟩
      ⟨.ok ⟨url, fin.pages, none⟩, { s with visited_urls := fin.visited },
        url :: fin.trace, rFetches⟩
    else
      ⟨.ok ⟨url, pages1, none⟩, { s with visited_urls := visited1 }, [url], rFetches⟩

/-- `WebScraper.scrape` (scraper.py lines 122-177): validate the seed URL
(raising on failure before any network call), consult robots.txt when
configured (raising when disallowed), then run the crawl body. -/
def scrape (env : Env) (s : WebScraper) (url : Str) : ScrapeRun :=
  if _is_valid_url url then
    if s.config.respect_robots_txt then
      let step := RobotsTxtChecker.can_fetch env s.robots_checker url "*".data
      if step.result then
        scrapeTry env { s with robots_checker := step.checker } url step.fetches
      else
        ⟨.permissionError ("robots.txt disallows scraping: ".data ++ url),
          { s with robots_checker := step.checker }, [], step.fetches⟩
    else scrapeTry env s url 0
  else ⟨.validationError ("Invalid URL: ".data ++ url), s, [], 0⟩

/-- The pages of an `ok` outcome (a raised exception produces no pages). -/
def outcomePages : ScrapeOutcome → List PageRecord
  | .ok r => r.pages
  | _ => []

/-- The rate-limit window of `WebScraper._fetch_url`, from its decorators
`@sleep_and_retry` and `@limits(calls=1, period=1)` (scraper.py lines 55-56):
the period is the literal constant 1 second; `config.rate_limit` is never
consulted. -/
def ratelimit_period (_config : ScrapingConfig) : ℚ := 1

/-- Temporal model of the decorated `_fetch_url`: with the previous
rate-limited call having executed at `lastExec`, a call arriving at `arrival`
executes at `max arrival (lastExec + period)` — it sleeps until the window
allows it and is never dropped. -/
def fetch_exec_time (config : ScrapingConfig) (lastExec arrival : ℚ) : ℚ :=
  max arrival (lastExec + ratelimit_period config)

/-! ### Helper lemmas -/

lemma contains_insertUrl_self (visited : List Str) (url : Str) :
    (insertUrl visited url).contains url = true := by
  rw [insertUrl]
  split
  · assumption
  · simp

lemma contains_insertUrl_of (visited : List Str) (url x : Str)
    (h : visited.contains x = true) : (insertUrl visited url).contains x = true := by
  rw [insertUrl]
  split
  · exact h
  · simp only [List.contains_cons, h, Bool.or_true]

lemma scrapeLoop_pages_le (env : Env) (mp : Int) :
    ∀ (ls : List Str) (st : LoopState),
      (scrapeLoop env mp ls st).pages.length ≤ st.pages.length + ls.length := by
  intro ls
  induction ls with
  | nil => intro st; simp [scrapeLoop]
  | cons l rest ih =>
    intro st
    rw [scrapeLoop]
    split
    · simp
    · split
      · have := ih st
        simp only [List.length_cons]
        omega
      · split
        · have h : (scrapeLoop env mp rest { st with trace := st.trace ++ [l] }).pages.length
              ≤ st.pages.length + rest.length := ih _
          simp only [List.length_cons]
          omega
        · rename_i soup hsoup
          have h : (scrapeLoop env mp rest
              { visited := insertUrl st.visited l
                pages := st.pages ++ [⟨l, _extract_content soup⟩]
                trace := st.trace ++ [l] }).pages.length
              ≤ (st.pages ++ [(⟨l, _extract_content soup⟩ : PageRecord)]).length + rest.length := ih _
          simp only [List.length_append, List.length_cons, List.length_nil] at h ⊢
          omega

lemma scrapeLoop_pages_prefix (env : Env) (mp : Int) :
    ∀ (ls : List Str) (st : LoopState),
      ∃ ext, (scrapeLoop env mp ls st).pages = st.pages ++ ext := by
  intro ls
  induction ls with
  | nil => intro st; exact ⟨[], by simp [scrapeLoop]⟩
  | cons l rest ih =>
    intro st
    rw [scrapeLoop]
    split
    · exact ⟨[], by simp⟩
    · split
      · exact ih st
      · split
        · exact ih _
        · rename_i soup hsoup
          obtain ⟨ext, hext⟩ := ih { visited := insertUrl st.visited l
                                     pages := st.pages ++ [⟨l, _extract_content soup⟩]
                                     trace := st.trace ++ [l] }
          exact ⟨⟨l, _extract_content soup⟩ :: ext, by rw [hext]; simp⟩

lemma scrapeLoop_visited_mono (env : Env) (mp : Int) :
    ∀ (ls : List Str) (st : LoopState) (u : Str),
      st.visited.contains u = true →
      (scrapeLoop env mp ls st).visited.contains u = true := by
  intro ls
  induction ls with
  | nil => intro st u h; simpa [scrapeLoop] using h
  | cons l rest ih =>
    intro st u h
    rw [scrapeLoop]
    split
    · exact h
    · split
      · exact ih st u h
      · split
        · exact ih _ u h
        · exact ih _ u (contains_insertUrl_of _ _ _ h)

lemma scrapeLoop_inv (env : Env) (mp : Int) :
    ∀ (ls : List Str) (st : LoopState),
      (st.pages.map PageRecord.url).Nodup →
      (∀ p ∈ st.pages, st.visited.contains p.url = true) →
      ((scrapeLoop env mp ls st).pages.map PageRecord.url).Nodup ∧
      ∀ p ∈ (scrapeLoop env mp ls st).pages,
        (scrapeLoop env mp ls st).visited.contains p.url = true := by
  intro ls
  induction ls with
  | nil => intro st h1 h2; rw [scrapeLoop]; exact ⟨h1, h2⟩
  | cons l rest ih =>
    intro st h1 h2
    rw [scrapeLoop]
    split
    · exact ⟨h1, h2⟩
    · rename_i hbudget
      split
      · exact ih st h1 h2
      · rename_i hnotvis
        split
        · exact ih _ h1 h2
        · rename_i soup hsoup
          apply ih
          · simp only [List.map_append, List.map_cons, List.map_nil]
            rw [List.nodup_append]
            refine ⟨h1, List.nodup_singleton _, ?_⟩
            intro a ha hb
            simp only [List.mem_singleton] at hb
            subst hb
            simp only [List.mem_map] at ha
            obtain ⟨p, hp, hpu⟩ := ha
            have := h2 p hp
            rw [hpu] at this
            have hmem : a ∈ st.visited := by simpa using this
            exact absurd hmem (by simpa using hnotvis)
          · intro p hp
            simp only [List.mem_append, List.mem_singleton] at hp
            rcases hp with hp | hp
            · exact contains_insertUrl_of _ _ _ (h2 p hp)
            · subst hp
              exact contains_insertUrl_self _ _

lemma scrapeTry_config_robots_irrel (env : Env) (s : WebScraper) (url : Str)
    (rF : Nat) (c' : RobotsTxtChecker) :
    (scrapeTry env { s with robots_checker := c' } url rF).outcome =
      (scrapeTry env s url 0).outcome := by
  rw [scrapeTry, scrapeTry]
  cases env.fetchPage url
  · rfl
  · simp only
    split <;> rfl

lemma scrape_outcome_eq_scrapeTry (env : Env) (s : WebScraper) (url : Str)
    (hv : _is_valid_url url = true)
    (hrob : s.config.respect_robots_txt = false ∨
      (RobotsTxtChecker.can_fetch env s.robots_checker url "*".data).result = true) :
    (scrape env s url).outcome = (scrapeTry env s url 0).outcome := by
  rw [scrape, if_pos hv]
  by_cases hresp : s.config.respect_robots_txt = true
  · have hres : (RobotsTxtChecker.can_fetch env s.robots_checker url "*".data).result = true := by
      rcases hrob with h | h
      · rw [hresp] at h; exact absurd h (by simp)
      · exact h
    rw [if_pos hresp, if_pos hres]
    exact scrapeTry_config_robots_irrel env s url _ _
  · rw [if_neg hresp]

lemma scrapeTry_pages_le (env : Env) (s : WebScraper) (url : Str) (rF : Nat)
    (hmp : 1 ≤ s.config.max_pages) :
    ∀ r, (scrapeTry env s url rF).outcome = .ok r →
      (r.pages.length : Int) ≤ s.config.max_pages := by
  intro r h
  rw [scrapeTry] at h
  cases hf : env.fetchPage url with
  | none =>
    rw [hf] at h
    simp only [ScrapeOutcome.ok.injEq] at h
    subst h
    simp only [List.length_nil, Nat.cast_zero]
    omega
  | some soup =>
    rw [hf] at h
    simp only at h
    split at h
    · simp only [ScrapeOutcome.ok.injEq] at h
      subst h
      have h1 := scrapeLoop_pages_le env s.config.max_pages
        (pySliceTo (s.config.max_pages - 1)
          (_extract_links (insertUrl s.visited_urls url) soup url))
        ⟨insertUrl s.visited_urls url, [⟨url, _extract_content soup⟩], []⟩
      have h2 : (pySliceTo (s.config.max_pages - 1)
          (_extract_links (insertUrl s.visited_urls url) soup url)).length
          ≤ (s.config.max_pages - 1).toNat := by
        rw [pySliceTo, if_pos (by omega : (0 : Int) ≤ s.config.max_pages - 1)]
        exact List.length_take_le _ _
      simp only [List.length_cons, List.length_nil] at h1 ⊢
      omega
    · simp only [ScrapeOutcome.ok.injEq] at h
      subst h
      simp only [List.length_cons, List.length_nil]
      omega

lemma scrapeTry_nodup (env : Env) (s : WebScraper) (url : Str) (rF : Nat) :
    ((outcomePages (scrapeTry env s url rF).outcome).map PageRecord.url).Nodup := by
  rw [scrapeTry]
  cases hf : env.fetchPage url with
  | none => simp [outcomePages]
  | some soup =>
    simp only
    split
    · simp only [outcomePages]
      have hinv := scrapeLoop_inv env s.config.max_pages
        (pySliceTo (s.config.max_pages - 1)
          (_extract_links (insertUrl s.visited_urls url) soup url))
        ⟨insertUrl s.visited_urls url, [⟨url, _extract_content soup⟩], []⟩
        (by simp)
        (by
          intro p hp
          simp only [List.mem_singleton] at hp
          subst hp
          exact contains_insertUrl_self _ _)
      exact hinv.1
    · simp [outcomePages]

/-- C1: for every crawl configuration with positive `max_pages` and every
invocation of `WebScraper.scrape` that returns a result, the `pages` list of
the returned `CrawlResult` has length at most `config.max_pages`, regardless
of how many candidate links the seed page contains. -/
theorem scrape_respects_page_budget (env : Env) (s : WebScraper) (url : Str)
    (hmp : 1 ≤ s.config.max_pages) :
    ∀ r, (scrape env s url).outcome = .ok r →
      (r.pages.length : Int) ≤ s.config.max_pages := by
  intro r h
  rw [scrape] at h
  split at h
  · split at h
    · simp only at h
      split at h
      · refine scrapeTry_pages_le env
          { s with robots_checker :=
            (RobotsTxtChecker.can_fetch env s.robots_checker url "*".data).checker }
          url (RobotsTxtChecker.can_fetch env s.robots_checker url "*".data).fetches ?_ r h
        exact hmp
      · exact absurd h (by simp)
    · exact scrapeTry_pages_le env s url 0 hmp r h
  · exact absurd h (by simp)

/-- C2: for every invocation of `WebScraper.scrape`, no two entries of the
returned pages list have the same `url` field, even when the seed page's link
list contains the same candidate URL more than once. -/
theorem scrape_page_urls_distinct (env : Env) (s : WebScraper) (url : Str) :
    ((outcomePages (scrape env s url).outcome).map PageRecord.url).Nodup := by
  rw [scrape]
  split
  · split
    · simp only
      split
      · exact scrapeTry_nodup env _ url _
      · simp [outcomePages]
    · exact scrapeTry_nodup env s url 0
  · simp [outcomePages]

/-- C3: for every syntactically valid seed URL, with `respect_robots_txt`
false and a seed fetch that succeeds, `scrape` returns a `CrawlResult` whose
first page's url equals the seed URL and whose error field is null, for any
outcomes (success or failure) of the secondary-page fetches. -/
theorem scrape_ok_seed_first (env : Env) (s : WebScraper) (url : Str) (soup : Soup)
    (hv : _is_valid_url url = true)
    (hr : s.config.respect_robots_txt = false)
    (hf : env.fetchPage url = some soup) :
    ∃ ps, (scrape env s url).outcome = .ok ⟨url, ps, none⟩ ∧
      ps.head?.map PageRecord.url = some url := by
  have heq : (scrape env s url).outcome = (scrapeTry env s url 0).outcome :=
    scrape_outcome_eq_scrapeTry env s url hv (Or.inl hr)
  rw [heq, scrapeTry, hf]
  simp only
  split
  · obtain ⟨ext, hext⟩ := scrapeLoop_pages_prefix env s.config.max_pages
      (pySliceTo (s.config.max_pages - 1)
        (_extract_links (insertUrl s.visited_urls url) soup url))
      ⟨insertUrl s.visited_urls url, [⟨url, _extract_content soup⟩], []⟩
    refine ⟨_, rfl, ?_⟩
    rw [hext]
    simp
  · exact ⟨_, rfl, by simp⟩

/-- C4: for every syntactically valid, robots-allowed seed URL whose fetch
fails, `scrape` returns — without raising — a `CrawlResult` with an empty
pages list and a non-empty error string. -/
theorem scrape_seed_failure_reported (env : Env) (s : WebScraper) (url : Str)
    (hv : _is_valid_url url = true)
    (hrob : s.config.respect_robots_txt = false ∨
      (RobotsTxtChecker.can_fetch env s.robots_checker url "*".data).result = true)
    (hf : env.fetchPage url = none) :
    (scrape env s url).outcome =
      .ok ⟨url, [], some ("Failed to fetch main URL: ".data ++ url)⟩ ∧
    ("Failed to fetch main URL: ".data ++ url) ≠ [] := by
  constructor
  · rw [scrape_outcome_eq_scrapeTry env s url hv hrob, scrapeTry, hf]
  · intro hcon
    rw [List.append_eq_nil] at hcon
    exact absurd hcon.1 (by decide)

/-- C5: for every input string that is not a syntactically valid absolute
URL, `scrape` raises a validation error before any network call (no page
fetch, no robots fetch), and no result object is produced: the returned run
is exactly the raised error with an untouched scraper state. -/
theorem scrape_invalid_url_rejected (env : Env) (s : WebScraper) (url : Str)
    (hv : _is_valid_url url = false) :
    scrape env s url =
      ⟨.validationError ("Invalid URL: ".data ++ url), s, [], 0⟩ := by
  have h : ¬ _is_valid_url url = true := by simp [hv]
  rw [scrape, if_neg h]

/-! ### Concrete environments used by witnesses and counterexamples -/

/-- A seed page on example.com with three same-domain relative links. -/
def soupW : Soup := ⟨none, [], [], [], ["/u".data, "/v".data, "/w".data]⟩

/-- A leaf page with no links. -/
def soupLeaf : Soup := ⟨none, [], [], [], []⟩

/-- Witness environment: the example.com seed and `/u` resolve, every other
page fetch fails; robots.txt requests always raise. -/
def envW : Env :=
  { fetchRobots := fun _ => none
    fetchPage := fun u =>
      if u = "https://example.com/".data then some soupW
      else if u = "https://example.com/u".data then some soupLeaf
      else none }

/-- A two-page budget with robots checking off. -/
def cfgW : ScrapingConfig :=
  { max_pages := 2, rate_limit := 1, respect_robots_txt := false,
    scrape_multiple_pages := true }

/-- A fresh scraper built over `cfgW`. -/
def sW : WebScraper := WebScraper.init (some cfgW)

/-- The content extracted from a page with no title, headings, text or code. -/
def contentW : Content := ⟨[], [], [], []⟩

/-- The crawl result `envW` produces from the example.com seed. -/
def resultW : CrawlResult :=
  ⟨"https://example.com/".data,
    [⟨"https://example.com/".data, contentW⟩, ⟨"https://example.com/u".data, contentW⟩],
    none⟩

/-- An environment in which every HTTP request fails. -/
def envFail : Env := { fetchRobots := fun _ => none, fetchPage := fun _ => none }

/-- A scraper constructed with the default configuration (`WebScraper()`). -/
def sDefault : WebScraper := WebScraper.init none

/-- Witness for C1 at a concrete crawl: budget 2, three candidate links. -/
theorem scrape_respects_page_budget_witness :
    (1 : Int) ≤ sW.config.max_pages ∧
    (scrape envW sW "https://example.com/".data).outcome = .ok resultW ∧
    (resultW.pages.length : Int) ≤ sW.config.max_pages :=
  ⟨by decide, by decide,
    scrape_respects_page_budget envW sW "https://example.com/".data (by decide)
      resultW (by decide)⟩

/-- Witness for C3 at a concrete crawl in which the `/v` and `/w` secondary
fetches fail while `/u` succeeds. -/
theorem scrape_ok_seed_first_witness :
    ∃ ps, (scrape envW sW "https://example.com/".data).outcome =
      .ok ⟨"https://example.com/".data, ps, none⟩ ∧
      ps.head?.map PageRecord.url = some "https://example.com/".data :=
  scrape_ok_seed_first envW sW "https://example.com/".data soupW
    (by decide) (by decide) (by decide)

/-- Witness for C4: default config, robots request raises (fail-open allows),
seed fetch fails. -/
theorem scrape_seed_failure_reported_witness :
    (scrape envFail sDefault "https://example.com".data).outcome =
      .ok ⟨"https://example.com".data, [],
        some ("Failed to fetch main URL: ".data ++ "https://example.com".data)⟩ ∧
    ("Failed to fetch main URL: ".data ++ "https://example.com".data) ≠ [] :=
  scrape_seed_failure_reported envFail sDefault "https://example.com".data
    (by decide) (Or.inr (by decide)) (by decide)

/-- Witness for C5 at the spec's own example input. -/
theorem scrape_invalid_url_rejected_witness :
    scrape envFail sDefault "not a url".data =
      ⟨.validationError ("Invalid URL: ".data ++ "not a url".data), sDefault, [], 0⟩ :=
  scrape_invalid_url_rejected envFail sDefault "not a url".data (by decide)

/-- Environment for the robots-cache claim: a.com's robots.txt is empty
(allows everything) while b.com's disallows everything. -/
def envC6 : Env :=
  { fetchRobots := fun u =>
      if u = "https://a.com/robots.txt".data then some "".data
      else if u = "https://b.com/robots.txt".data then
        some "User-agent: *\nDisallow: /".data
      else none
    fetchPage := fun _ => none }

/-- The checker state after `can_fetch` has been called for an a.com URL and
then for a b.com URL through `envC6`. -/
def checkerAB : RobotsTxtChecker :=
  (RobotsTxtChecker.can_fetch envC6
    (RobotsTxtChecker.can_fetch envC6 ⟨[], []⟩ "https://a.com/x".data "*".data).checker
    "https://b.com/y".data "*".data).checker

/-- C6 (code bug): the robots cache does NOT map each domain to its own rule
state. After consulting a.com (robots empty, everything allowed) and then
b.com (robots disallows `/`), a later `can_fetch` for an a.com URL is a cache
hit (no fetch) yet returns `false`, because every cache entry aliases the one
shared parser, whose state was overwritten by b.com's rules; a.com's own
rules allow the URL. -/
theorem robots_cache_shared_parser_bug :
    (RobotsTxtChecker.can_fetch envC6 ⟨[], []⟩ "https://a.com/x".data "*".data).result
      = true ∧
    (RobotsTxtChecker.can_fetch envC6 checkerAB "https://a.com/z".data "*".data).fetches
      = 0 ∧
    (RobotsTxtChecker.can_fetch envC6 checkerAB "https://a.com/z".data "*".data).result
      = false ∧
    is_allowed (parseRobots "".data) "*".data "https://a.com/z".data = true := by
  decide

/-- C7 (counterexample): when the robots.txt request for a domain raises, the
first `can_fetch` returns `true` but leaves the cache empty, and a second
`can_fetch` for the same domain performs another robots.txt fetch
(`fetches = 1`), contradicting the claim that a permissive rule set is cached
so that subsequent calls trigger no further fetch. -/
theorem robots_failure_caching_counterexample :
    (RobotsTxtChecker.can_fetch envFail ⟨[], []⟩ "https://a.com/x".data "*".data).result
      = true ∧
    (RobotsTxtChecker.can_fetch envFail ⟨[], []⟩ "https://a.com/x".data "*".data).checker
      = ⟨[], []⟩ ∧
    (RobotsTxtChecker.can_fetch envFail
      (RobotsTxtChecker.can_fetch envFail ⟨[], []⟩ "https://a.com/x".data "*".data).checker
      "https://a.com/y".data "*".data).fetches = 1 := by
  decide

/-- C7 (amended): whenever the robots.txt request for an uncached domain
raises (network failure or timeout), `can_fetch` returns `true` (fail-open)
but caches NOTHING for that domain — the checker state is unchanged — so a
later call for the same domain fetches robots.txt again. -/
theorem robots_lookup_failure_fail_open_uncached (env : Env) (c : RobotsTxtChecker)
    (url user_agent : Str)
    (hmiss : c.cache.contains (netloc url) = false)
    (hfail : env.fetchRobots (robotsUrlOf url) = none) :
    RobotsTxtChecker.can_fetch env c url user_agent = ⟨true, c, 1⟩ := by
  rw [RobotsTxtChecker.can_fetch]
  simp [hfail]
  simpa using hmiss

/-- Witness for the amended C7 at a concrete failing environment. -/
theorem robots_lookup_failure_fail_open_uncached_witness :
    RobotsTxtChecker.can_fetch envFail ⟨[], []⟩ "https://a.com/x".data "*".data =
      ⟨true, ⟨[], []⟩, 1⟩ :=
  robots_lookup_failure_fail_open_uncached envFail ⟨[], []⟩ "https://a.com/x".data
    "*".data (by decide) (by decide)

/-- The first crawl of the example.com seed through `envW`. -/
def runW : ScrapeRun := scrape envW sW "https://example.com/".data

/-- C8 (counterexample): calling `scrape` twice on the SAME `WebScraper`
instance: the first crawl returns the seed and `/u`; the second crawl of the
same seed returns only the seed, because the visited set carried over from
the first invocation excludes `/u` from the candidate links — so a later
invocation does not start from an empty visited set and is affected by
earlier invocations. -/
theorem visited_set_cross_invocation_counterexample :
    ((outcomePages runW.outcome).map PageRecord.url) =
      ["https://example.com/".data, "https://example.com/u".data] ∧
    ((outcomePages (scrape envW runW.scraper "https://example.com/".data).outcome).map
      PageRecord.url) = ["https://example.com/".data] := by
  decide

lemma scrapeTry_visited_mono (env : Env) (s : WebScraper) (url : Str) (rF : Nat)
    (u : Str) (h : s.visited_urls.contains u = true) :
    (scrapeTry env s url rF).scraper.visited_urls.contains u = true := by
  rw [scrapeTry]
  cases hf : env.fetchPage url with
  | none => simpa using h
  | some soup =>
    simp only
    split
    · exact scrapeLoop_visited_mono env s.config.max_pages _ _ u
        (contains_insertUrl_of _ _ _ h)
    · exact contains_insertUrl_of _ _ _ h

/-- C8 (amended): the visited set is per-`WebScraper`-instance state, not
per-invocation: it is empty when an instance is constructed and `scrape`
never clears it (every URL it contains before a call is still contained
afterwards), so repeated `scrape` calls on one instance share and accumulate
it; a crawl starts from an empty visited set only because the API layer
constructs a fresh `WebScraper` per request. -/
theorem visited_set_instance_scoped (env : Env) (s : WebScraper) (url u : Str)
    (cfg : Option ScrapingConfig)
    (h : s.visited_urls.contains u = true) :
    (WebScraper.init cfg).visited_urls = [] ∧
    (scrape env s url).scraper.visited_urls.contains u = true := by
  refine ⟨rfl, ?_⟩
  rw [scrape]
  split
  · split
    · simp only
      split
      · exact scrapeTry_visited_mono env _ url _ u h
      · exact h
    · exact scrapeTry_visited_mono env s url 0 u h
  · exact h

/-- Witness for the amended C8: the scraper state left by the first crawl
still contains `/u`, and a second crawl on it keeps `/u` in the visited set. -/
theorem visited_set_instance_scoped_witness :
    (WebScraper.init (some cfgW)).visited_urls = [] ∧
    (scrape envW runW.scraper "https://example.com/".data).scraper.visited_urls.contains
      "https://example.com/u".data = true :=
  visited_set_instance_scoped envW runW.scraper "https://example.com/".data
    "https://example.com/u".data (some cfgW) (by decide)

/-- A page whose only anchor resolves to a URL with a `.pdf` path hidden
behind a query string. -/
def soupPdf : Soup := ⟨none, [], [], [], ["/doc.pdf?download=1".data]⟩

/-- C9 (counterexample): `_extract_links` keeps
`https://a.com/doc.pdf?download=1` — the denylist is tested against the FULL
URL string, which ends in `=1` — even though the URL's path `/doc.pdf` ends
in `.pdf`, contradicting the claim that returned URLs' paths never end in a
denylisted extension. -/
theorem extract_links_path_filter_counterexample :
    _extract_links [] soupPdf "https://a.com/".data =
      ["https://a.com/doc.pdf?download=1".data] ∧
    ".pdf".data.isSuffixOf (pathOf "https://a.com/doc.pdf?download=1".data) = true := by
  decide

/-- C9 (amended): `_extract_links` returns, in document order (a sublist of
the anchors resolved against the base URL), exactly those resolved URLs whose
domain equals the base URL's domain, that are not in the visited set, and
whose FULL URL string (not its path) does not end in
`.pdf`/`.zip`/`.png`/`.jpg`. -/
theorem extract_links_characterization (visited : List Str) (soup : Soup)
    (base_url : Str) :
    ((_extract_links visited soup base_url).all (fun l =>
      netloc l == netloc base_url && !(visited.contains l) &&
      !(endsWithBinaryExt l)) = true) ∧
    (_extract_links visited soup base_url).Sublist
      (soup.anchors.map (urljoin base_url)) ∧
    (∀ href ∈ soup.anchors,
      (netloc (urljoin base_url href) == netloc base_url &&
        !(visited.contains (urljoin base_url href)) &&
        !(endsWithBinaryExt (urljoin base_url href))) = true →
      urljoin base_url href ∈ _extract_links visited soup base_url) := by
  have hunf : _extract_links visited soup base_url =
      (soup.anchors.map (urljoin base_url)).filter (fun full_url =>
        netloc full_url == netloc base_url && !(visited.contains full_url) &&
        !(endsWithBinaryExt full_url)) := rfl
  refine ⟨?_, ?_, ?_⟩
  · rw [List.all_eq_true]
    intro l hl
    rw [hunf] at hl
    exact (List.mem_filter.mp hl).2
  · rw [hunf]
    exact List.filter_sublist _
  · intro href hh hp
    rw [hunf]
    exact List.mem_filter.mpr ⟨List.mem_map_of_mem _ hh, hp⟩

/-- Witness for the amended C9: the pdf-behind-query candidate passes all
three filter conditions and is indeed returned. -/
theorem extract_links_characterization_witness :
    "https://a.com/doc.pdf?download=1".data ∈
      _extract_links [] soupPdf "https://a.com/".data :=
  (extract_links_characterization [] soupPdf "https://a.com/".data).2.2
    "/doc.pdf?download=1".data (by decide) (by decide)

/-- A configuration asking for 2 requests per second. -/
def cfgFast : ScrapingConfig :=
  { max_pages := 100, rate_limit := 2, respect_robots_txt := true,
    scrape_multiple_pages := true }

/-- C10 (counterexample): with `rate_limit = 2` the claim's minimum
inter-call interval is 1/2 s, so a fetch arriving 3/5 s after the previous
one should proceed without blocking; the decorated fetcher nevertheless
delays it to the fixed 1-second window, because `config.rate_limit` is never
consulted by the `@limits(calls=1, period=1)` decorator. -/
theorem rate_limit_config_ignored_counterexample :
    cfgFast.rate_limit = 2 ∧
    ((1 : ℚ) / 2 < 3 / 5) ∧
    fetch_exec_time cfgFast 0 (3 / 5) = 1 ∧
    fetch_exec_time cfgFast 0 (3 / 5) ≠ 3 / 5 := by
  have h1 : fetch_exec_time cfgFast 0 (3 / 5) = 1 := by
    rw [fetch_exec_time, ratelimit_period, zero_add]
    exact max_eq_right (by norm_num)
  exact ⟨rfl, by norm_num, h1, by rw [h1]; norm_num⟩

/-- C10 (amended): outbound page fetches are rate-limited to a FIXED 1
request per second regardless of `config.rate_limit`: the window period is
the constant 1 second; a call is never dropped or rejected — it executes at
the first instant that is both past its arrival and at least one second
after the previous rate-limited call, and a call arriving after the 1-second
window has already elapsed executes immediately. -/
theorem rate_limiter_fixed_one_second (config : ScrapingConfig)
    (lastExec arrival : ℚ) :
    ratelimit_period config = 1 ∧
    arrival ≤ fetch_exec_time config lastExec arrival ∧
    lastExec + 1 ≤ fetch_exec_time config lastExec arrival ∧
    (lastExec + 1 ≤ arrival → fetch_exec_time config lastExec arrival = arrival) := by
  refine ⟨rfl, ?_, ?_, ?_⟩
  · rw [fetch_exec_time]
    exact le_max_left _ _
  · rw [fetch_exec_time, ratelimit_period]
    exact le_max_right _ _
  · intro h
    rw [fetch_exec_time, ratelimit_period]
    exact max_eq_left h

/-- Witness for the amended C10: a call arriving two seconds after the
previous one executes immediately. -/
theorem rate_limiter_fixed_one_second_witness :
    ratelimit_period cfgFast = 1 ∧
    (2 : ℚ) ≤ fetch_exec_time cfgFast 0 2 ∧
    (0 : ℚ) + 1 ≤ fetch_exec_time cfgFast 0 2 ∧
    fetch_exec_time cfgFast 0 2 = 2 :=
  ⟨(rate_limiter_fixed_one_second cfgFast 0 2).1,
   (rate_limiter_fixed_one_second cfgFast 0 2).2.1,
   (rate_limiter_fixed_one_second cfgFast 0 2).2.2.1,
   (rate_limiter_fixed_one_second cfgFast 0 2).2.2.2 (by norm_num)⟩
